import Mathlib

/-!
Shallow embedding of `src/model_export.py` (iris.classifier).

The module is a thin dispatcher: `export_model` lowercases a framework tag and
routes to one of six exporters, each of which performs a fixed sequence of
calls into a third-party serialization routine, writing files under the fixed
`models/` directory.

Modelling choices:
* A trained model handle and a sample input tensor are opaque values.
* Serialized file contents are modelled symbolically: each third-party
  serialization routine is a constructor of `Content` recording exactly the
  data the source passes to it, so two calls of the same routine on the same
  arguments produce identical content (`joblib.dump` of the same object three
  times gives three identical serializations, as in `export_sklearn_model`).
* The filesystem is a list of (path, content) writes, newest first; lookup
  returns the newest write for a path (overwrite semantics).
* Each underlying framework save/export call may fail; failures are injected
  by an oracle mapping the index of the call (within one exporter invocation)
  to an optional raised error.  `runWrites` performs an exporter's fixed write
  sequence, stopping at the first failure and returning the raised error
  together with the filesystem at that point: the Python code has no
  try/except, so an error raised by call `k` aborts the rest of the sequence
  and propagates, leaving the first `k` writes on disk.
* Python keyword-argument binding is modelled by `Kwargs` (an optional `name`,
  an optional `sample_input`, and the list of any other keyword names) and
  `bindNameOnly`: every exporter except the PyTorch one accepts only
  `(model, name)`, so passing `sample_input` or any other keyword raises a
  `TypeError` before the exporter body runs.
* The dispatcher's PyTorch branch calls
  `export_pytorch_model(model, kwargs["sample_input"], **kwargs)`; since
  `sample_input` is then supplied both positionally and by keyword, Python
  raises `TypeError: export_pytorch_model() got multiple values for argument
  'sample_input'` during call binding, before the exporter body can run.  The
  embedding returns that error directly in this branch.
-/

/-- Opaque trained-model handle (framework-specific, owned by the caller). -/
structure Model where
  id : Nat
deriving DecidableEq

/-- Opaque representative input sample (`sample_input` for the PyTorch path). -/
structure Tensor where
  id : Nat
deriving DecidableEq

/-- Errors visible in the embedding: the two kinds raised by the module itself
(`ValueError`, and Python `TypeError` from call binding), the error
`os.makedirs` raises without `exist_ok`, and opaque errors raised by
underlying framework save/export calls. -/
inductive PyError where
  | valueError (msg : String)
  | typeError (msg : String)
  | fileExistsError (path : String)
  | frameworkError (code : Nat)
deriving DecidableEq

/-- Symbolic content of one written artifact: which third-party routine
produced it and from what arguments, exactly as the source invokes it. -/
inductive Content where
  | joblibPickle (m : Model)
  | torchStateDict (m : Model)
  | onnxGraph (m : Model) (sample : Tensor) (opsetVersion : Nat)
      (doConstantFolding : Bool) (exportParams : Bool)
  | xgbModel (m : Model) (ext : String)
  | lgbModel (m : Model) (ext : String)
  | catboostModel (m : Model) (ext : String)
  | kerasH5 (m : Model)
  | tfSavedModel (m : Model)
  | tfliteModel (m : Model)
deriving DecidableEq

/-- Filesystem: list of (path, content) pairs, newest write first. -/
abbrev FS := List (String × Content)

/-- One file write; a later write to the same path shadows an earlier one. -/
def writeFile (fs : FS) (p : String) (c : Content) : FS :=
  (p, c) :: fs

/-- Current content of a path: the newest write to it, if any. -/
def fsLookup : FS → String → Option Content
  | [], _ => none
  | (q, c) :: t, p => if p = q then some c else fsLookup t p

/-- Apply a sequence of writes in order (no failures). -/
def applyWrites : FS → List (String × Content) → FS
  | fs, [] => fs
  | fs, w :: ws => applyWrites (writeFile fs w.1 w.2) ws

/-- The content left at path `p` by a write sequence, if the sequence writes
`p` at all (the last such write wins). -/
def lastVal : List (String × Content) → String → Option Content
  | [], _ => none
  | w :: ws, p =>
    match lastVal ws p with
    | some c => some c
    | none => if p = w.1 then some w.2 else none

/-- Run an exporter's fixed sequence of underlying save/export calls.  The
oracle gives the outcome of the `k`-th call of this invocation: `none` means
the call succeeds and its file is written, `some e` means the call raises `e`.
There is no try/except anywhere in the source, so the first raised error
aborts the remaining calls and propagates unmodified; the filesystem keeps
every write made before the failing call. -/
def runWrites (oracle : Nat → Option PyError) (fs : FS) :
    List (String × Content) → Except (PyError × FS) FS
  | [] => .ok fs
  | w :: ws =>
    match oracle 0 with
    | some e => .error (e, fs)
    | none => runWrites (fun n => oracle (n + 1)) (writeFile fs w.1 w.2) ws

/-- Oracle under which every underlying call succeeds. -/
def happyOracle : Nat → Option PyError := fun _ => none

/-- Oracle that makes exactly the call of index `k` raise `e`. -/
def failOracleAt (k : Nat) (e : PyError) : Nat → Option PyError :=
  fun n => if n = k then some e else none

/-- Writes of `export_sklearn_model`: `joblib.dump(model, path)` three times,
to `models/{name}.pkl`, `models/{name}.joblib`, `models/{name}.bin`. -/
def sklearnWrites (m : Model) (name : String) : List (String × Content) :=
  [("models/" ++ name ++ ".pkl", .joblibPickle m),
   ("models/" ++ name ++ ".joblib", .joblibPickle m),
   ("models/" ++ name ++ ".bin", .joblibPickle m)]

/-- Writes of `export_pytorch_model`: `torch.save(model.state_dict(), ...)` to
`.pt` and `.bin`, then `torch.onnx.export(model, sample_input, ...)` with
`export_params=True`, `opset_version=12`, `do_constant_folding=True`. -/
def pytorchWrites (m : Model) (sample : Tensor) (name : String) :
    List (String × Content) :=
  [("models/" ++ name ++ ".pt", .torchStateDict m),
   ("models/" ++ name ++ ".bin", .torchStateDict m),
   ("models/" ++ name ++ ".onnx", .onnxGraph m sample 12 true true)]

/-- Writes of `export_xgboost_model`: `model.save_model` to `.bin`, `.json`. -/
def xgboostWrites (m : Model) (name : String) : List (String × Content) :=
  [("models/" ++ name ++ ".bin", .xgbModel m ("bin")),
   ("models/" ++ name ++ ".json", .xgbModel m ("json"))]

/-- Writes of `export_lightgbm_model`: `model.save_model` to `.bin`, `.txt`. -/
def lightgbmWrites (m : Model) (name : String) : List (String × Content) :=
  [("models/" ++ name ++ ".bin", .lgbModel m ("bin")),
   ("models/" ++ name ++ ".txt", .lgbModel m ("txt"))]

/-- Writes of `export_catboost_model`: `model.save_model` to `.bin`, `.cbm`. -/
def catboostWrites (m : Model) (name : String) : List (String × Content) :=
  [("models/" ++ name ++ ".bin", .catboostModel m ("bin")),
   ("models/" ++ name ++ ".cbm", .catboostModel m ("cbm"))]

/-- Writes of `export_keras_model`: `model.save` to `.h5`, `model.save` of the
`{name}_saved_model` directory (save_format="tf"), then the TFLite conversion
followed by writing `.tflite` (modelled as one step: if the conversion fails,
the `.tflite` file is never written). -/
def kerasWrites (m : Model) (name : String) : List (String × Content) :=
  [("models/" ++ name ++ ".h5", .kerasH5 m),
   ("models/" ++ name ++ "_saved_model", .tfSavedModel m),
   ("models/" ++ name ++ ".tflite", .tfliteModel m)]

/-- `export_sklearn_model(model, name)`. -/
def export_sklearn_model (oracle : Nat → Option PyError) (fs : FS)
    (m : Model) (name : String) : Except (PyError × FS) FS :=
  runWrites oracle fs (sklearnWrites m name)

/-- `export_pytorch_model(model, sample_input, name)` (direct call). -/
def export_pytorch_model (oracle : Nat → Option PyError) (fs : FS)
    (m : Model) (sample : Tensor) (name : String) : Except (PyError × FS) FS :=
  runWrites oracle fs (pytorchWrites m sample name)

/-- `export_xgboost_model(model, name)`. -/
def export_xgboost_model (oracle : Nat → Option PyError) (fs : FS)
    (m : Model) (name : String) : Except (PyError × FS) FS :=
  runWrites oracle fs (xgboostWrites m name)

/-- `export_lightgbm_model(model, name)`. -/
def export_lightgbm_model (oracle : Nat → Option PyError) (fs : FS)
    (m : Model) (name : String) : Except (PyError × FS) FS :=
  runWrites oracle fs (lightgbmWrites m name)

/-- `export_catboost_model(model, name)`. -/
def export_catboost_model (oracle : Nat → Option PyError) (fs : FS)
    (m : Model) (name : String) : Except (PyError × FS) FS :=
  runWrites oracle fs (catboostWrites m name)

/-- `export_keras_model(model, name)`. -/
def export_keras_model (oracle : Nat → Option PyError) (fs : FS)
    (m : Model) (name : String) : Except (PyError × FS) FS :=
  runWrites oracle fs (kerasWrites m name)

/-- The six exporters, for statements quantifying over all of them. -/
inductive Exporter where
  | sklearn | pytorch | xgboost | lightgbm | catboost | keras
deriving DecidableEq

/-- The fixed write sequence of each exporter (the tensor is used only by the
PyTorch exporter, as its `sample_input`). -/
def exporterWrites (ex : Exporter) (m : Model) (t : Tensor) (name : String) :
    List (String × Content) :=
  match ex with
  | .sklearn => sklearnWrites m name
  | .pytorch => pytorchWrites m t name
  | .xgboost => xgboostWrites m name
  | .lightgbm => lightgbmWrites m name
  | .catboost => catboostWrites m name
  | .keras => kerasWrites m name

/-- Run one exporter directly (its body, after successful call binding). -/
def runExporter (ex : Exporter) (oracle : Nat → Option PyError) (fs : FS)
    (m : Model) (t : Tensor) (name : String) : Except (PyError × FS) FS :=
  runWrites oracle fs (exporterWrites ex m t name)

/-- The `**kwargs` of an `export_model` call: an optional `name`, an optional
`sample_input`, and the names of any other keyword arguments. -/
structure Kwargs where
  name : Option String
  sample_input : Option Tensor
  extra : List String
deriving DecidableEq

/-- Python call binding for `fname(model, **kwargs)` where `fname` has
signature `(model, name="model")`: any keyword other than `name` raises a
`TypeError` before the body runs; otherwise `name` defaults to "model". -/
def bindNameOnly (fname : String) (kw : Kwargs) : Except PyError String :=
  if kw.sample_input.isSome || !kw.extra.isEmpty then
    .error (.typeError (fname ++ "() got an unexpected keyword argument"))
  else
    .ok (kw.name.getD ("model"))

/-- Body of `export_model` after `framework = framework.lower()`: the
if/elif chain on the lowercased tag. -/
def exportDispatch (oracle : Nat → Option PyError) (fs : FS) (m : Model)
    (fw : String) (kw : Kwargs) : Except (PyError × FS) FS :=
  if fw = "sklearn" then
    match bindNameOnly ("export_sklearn_model") kw with
    | .error e => .error (e, fs)
    | .ok name => export_sklearn_model oracle fs m name
  else if fw = "pytorch" then
    match kw.sample_input with
    | none =>
      .error (.valueError ("PyTorch export requires \x27sample_input\x27 argument"), fs)
    | some _ =>
      .error (.typeError
        ("export_pytorch_model() got multiple values for argument \x27sample_input\x27"), fs)
  else if fw = "xgboost" then
    match bindNameOnly ("export_xgboost_model") kw with
    | .error e => .error (e, fs)
    | .ok name => export_xgboost_model oracle fs m name
  else if fw = "lightgbm" then
    match bindNameOnly ("export_lightgbm_model") kw with
    | .error e => .error (e, fs)
    | .ok name => export_lightgbm_model oracle fs m name
  else if fw = "catboost" then
    match bindNameOnly ("export_catboost_model") kw with
    | .error e => .error (e, fs)
    | .ok name => export_catboost_model oracle fs m name
  else if fw = "keras" then
    match bindNameOnly ("export_keras_model") kw with
    | .error e => .error (e, fs)
    | .ok name => export_keras_model oracle fs m name
  else
    .error (.valueError ("Unsupported framework: " ++ fw), fs)

/-- `framework.lower()`: lowercase every character (the framework tags this
module compares against are plain ASCII). -/
def pyLower (s : String) : String :=
  ⟨s.data.map Char.toLower⟩

/-- `export_model(model, framework, **kwargs)`: lowercase the tag, then
dispatch. -/
def export_model (oracle : Nat → Option PyError) (fs : FS) (m : Model)
    (framework : String) (kw : Kwargs) : Except (PyError × FS) FS :=
  exportDispatch oracle fs m (pyLower framework) kw

/-- Directory state for the module-level `os.makedirs` call. -/
structure DirFS where
  dirs : List String
deriving DecidableEq

/-- `os.makedirs(path, exist_ok=...)`: creates the directory if absent;
with `exist_ok=True` an existing directory is not an error. -/
def os_makedirs (path : String) (exist_ok : Bool) (s : DirFS) :
    Except PyError DirFS :=
  if path ∈ s.dirs then
    if exist_ok then .ok s else .error (.fileExistsError path)
  else
    .ok ⟨path :: s.dirs⟩

/-- The module-level statement `os.makedirs("models", exist_ok=True)`, run
once at import time, before any exporter can be called. -/
def moduleInit (s : DirFS) : Except PyError DirFS :=
  os_makedirs ("models") true s

/-- The six supported framework tags, lowercased. -/
def supportedTags : List String :=
  ["sklearn", "pytorch", "xgboost", "lightgbm", "catboost", "keras"]

/-- The supported tags whose exporter accepts only `(model, name)`. -/
def nameOnlyTags : List String :=
  ["sklearn", "xgboost", "lightgbm", "catboost", "keras"]

/-! ### General lemmas about the write-sequence runner -/

/-- With no failing underlying call, `runWrites` writes the whole sequence. -/
theorem runWrites_happy (ws : List (String × Content)) :
    ∀ fs : FS, runWrites happyOracle fs ws = .ok (applyWrites fs ws) := by
  induction ws with
  | nil => intro fs; rfl
  | cons w ws ih => intro fs; exact ih (writeFile fs w.1 w.2)

/-- If `runWrites` raises, the raised error is exactly the one reported by the
oracle at the first failing call `k`, every earlier call succeeded, and the
filesystem holds exactly the first `k` writes. -/
theorem runWrites_error_charac (ws : List (String × Content)) :
    ∀ (oracle : Nat → Option PyError) (fs : FS) (e : PyError) (fs' : FS),
      runWrites oracle fs ws = .error (e, fs') →
      ∃ k, k < ws.length ∧ oracle k = some e ∧ (∀ j, j < k → oracle j = none) ∧
        fs' = applyWrites fs (List.take k ws) := by
  induction ws with
  | nil =>
    intro oracle fs e fs' h
    simp [runWrites] at h
  | cons w ws ih =>
    intro oracle fs e fs' h
    rw [runWrites] at h
    cases h0 : oracle 0 with
    | some e0 =>
      rw [h0] at h
      simp only [Except.error.injEq, Prod.mk.injEq] at h
      refine ⟨0, by simp, ?_, ?_, ?_⟩
      · rw [h0, h.1]
      · intro j hj; omega
      · simp [h.2, applyWrites]
    | none =>
      rw [h0] at h
      simp only at h
      obtain ⟨k, hk, hke, hj, hfs⟩ := ih _ _ _ _ h
      refine ⟨k + 1, by simpa using hk, hke, ?_, ?_⟩
      · intro j hj'
        cases j with
        | zero => exact h0
        | succ j' => exact hj j' (by omega)
      · simpa [List.take, applyWrites] using hfs

/-- Lookup after applying a write sequence: the last write to the path wins;
a path the sequence never writes keeps its previous content. -/
theorem fsLookup_applyWrites (ws : List (String × Content)) :
    ∀ (fs : FS) (p : String),
      fsLookup (applyWrites fs ws) p =
        match lastVal ws p with
        | some c => some c
        | none => fsLookup fs p := by
  induction ws with
  | nil => intro fs p; rfl
  | cons w ws ih =>
    intro fs p
    rw [applyWrites, ih]
    cases hl : lastVal ws p with
    | some c => simp [lastVal, hl]
    | none =>
      by_cases hp : p = w.1
      · subst hp
        simp [lastVal, hl, writeFile, fsLookup]
      · simp [lastVal, hl, writeFile, fsLookup, hp]

/-! ### Dispatcher lemmas shared by several claims -/

/-- A tag outside the supported set reaches the final `else`: a `ValueError`
naming the (lowercased) tag, with no write and no underlying call. -/
theorem exportDispatch_unsupported (oracle : Nat → Option PyError) (fs : FS)
    (m : Model) (fw : String) (kw : Kwargs) (h : fw ∉ supportedTags) :
    exportDispatch oracle fs m fw kw =
      .error (.valueError ("Unsupported framework: " ++ fw), fs) := by
  have h1 : fw ≠ "sklearn" := fun hc => h (by rw [hc]; decide)
  have h2 : fw ≠ "pytorch" := fun hc => h (by rw [hc]; decide)
  have h3 : fw ≠ "xgboost" := fun hc => h (by rw [hc]; decide)
  have h4 : fw ≠ "lightgbm" := fun hc => h (by rw [hc]; decide)
  have h5 : fw ≠ "catboost" := fun hc => h (by rw [hc]; decide)
  have h6 : fw ≠ "keras" := fun hc => h (by rw [hc]; decide)
  unfold exportDispatch
  rw [if_neg h1, if_neg h2, if_neg h3, if_neg h4, if_neg h5, if_neg h6]

/-- With an unexpected keyword present, `bindNameOnly` raises a `TypeError`. -/
theorem bindNameOnly_badKw (fname : String) (kw : Kwargs)
    (hkw : kw.sample_input.isSome = true ∨ kw.extra ≠ []) :
    bindNameOnly fname kw =
      .error (.typeError (fname ++ "() got an unexpected keyword argument")) := by
  have hc : (kw.sample_input.isSome || !kw.extra.isEmpty) = true := by
    rcases hkw with h | h
    · simp [h]
    · have he : kw.extra.isEmpty = false := by
        cases hx : kw.extra with
        | nil => exact absurd hx h
        | cons a l => rfl
      simp [he]
  unfold bindNameOnly
  rw [if_pos hc]

/-- For a tag whose exporter accepts only `(model, name)`, an unexpected
keyword aborts the dispatch with a `TypeError` before any write. -/
theorem exportDispatch_nameOnly_badKw (oracle : Nat → Option PyError) (fs : FS)
    (m : Model) (fw : String) (kw : Kwargs)
    (hfw : fw ∈ nameOnlyTags)
    (hkw : kw.sample_input.isSome = true ∨ kw.extra ≠ []) :
    ∃ msg, exportDispatch oracle fs m fw kw = .error (.typeError msg, fs) := by
  simp only [nameOnlyTags, List.mem_cons, List.mem_singleton,
    List.not_mem_nil, or_false] at hfw
  rcases hfw with rfl | rfl | rfl | rfl | rfl
  · refine ⟨"export_sklearn_model" ++ "() got an unexpected keyword argument", ?_⟩
    unfold exportDispatch
    rw [if_pos rfl, bindNameOnly_badKw _ _ hkw]
  · refine ⟨"export_xgboost_model" ++ "() got an unexpected keyword argument", ?_⟩
    unfold exportDispatch
    rw [if_neg (by decide), if_neg (by decide), if_pos rfl,
      bindNameOnly_badKw _ _ hkw]
  · refine ⟨"export_lightgbm_model" ++ "() got an unexpected keyword argument", ?_⟩
    unfold exportDispatch
    rw [if_neg (by decide), if_neg (by decide), if_neg (by decide), if_pos rfl,
      bindNameOnly_badKw _ _ hkw]
  · refine ⟨"export_catboost_model" ++ "() got an unexpected keyword argument", ?_⟩
    unfold exportDispatch
    rw [if_neg (by decide), if_neg (by decide), if_neg (by decide),
      if_neg (by decide), if_pos rfl, bindNameOnly_badKw _ _ hkw]
  · refine ⟨"export_keras_model" ++ "() got an unexpected keyword argument", ?_⟩
    unfold exportDispatch
    rw [if_neg (by decide), if_neg (by decide), if_neg (by decide),
      if_neg (by decide), if_neg (by decide), if_pos rfl,
      bindNameOnly_badKw _ _ hkw]

/-! ### Claim theorems -/

/-- Claim C1 (code bug): the spec says dispatch with tag "pytorch" and a
supplied sample_input routes to the PyTorch exporter and produces
`N.pt`, `N.bin`, `N.onnx`; the code instead always raises a `TypeError`,
because `export_model` passes `sample_input` to `export_pytorch_model` both
positionally and through `**kwargs`.  Evaluating the dispatcher at such a
call yields that `TypeError` and writes no file. -/
theorem c1_pytorch_dispatch_type_error :
    export_model happyOracle [] ⟨0⟩ ("pytorch") ⟨none, some ⟨0⟩, []⟩ =
      .error (.typeError
        ("export_pytorch_model() got multiple values for argument \x27sample_input\x27"),
        []) := by
  rfl

/-- Claim C2: for any tag that lowercases to "pytorch" and any kwargs lacking
`sample_input`, `export_model` raises the missing-required-parameter
`ValueError`, for every oracle and with the filesystem unchanged (so it fails
before attempting any export, and no file is written). -/
theorem c2_pytorch_missing_sample_input
    (oracle : Nat → Option PyError) (fs : FS) (m : Model)
    (framework : String) (kw : Kwargs)
    (hfw : pyLower framework = "pytorch") (hsi : kw.sample_input = none) :
    export_model oracle fs m framework kw =
      .error (.valueError ("PyTorch export requires \x27sample_input\x27 argument"),
        fs) := by
  unfold export_model
  rw [hfw]
  unfold exportDispatch
  rw [if_neg (by decide), if_pos rfl, hsi]

/-- Witness for C2: the mixed-case call `export_model(m, "PyTorch")` without
`sample_input` fails with the missing-required-parameter error and writes
nothing. -/
theorem c2_pytorch_missing_sample_input_witness :
    pyLower ("PyTorch") = "pytorch" ∧
      export_model happyOracle [] ⟨0⟩ ("PyTorch") ⟨none, none, []⟩ =
        .error (.valueError ("PyTorch export requires \x27sample_input\x27 argument"),
          []) :=
  ⟨by decide,
    c2_pytorch_missing_sample_input happyOracle [] ⟨0⟩ ("PyTorch")
      ⟨none, none, []⟩ (by decide) rfl⟩

/-- Claim C3: for any tag whose lowercasing is not one of the six supported
values, `export_model` raises the unsupported-framework `ValueError` naming
the tag; the result is the same for every oracle (no underlying save/export
call is consulted) and the filesystem is returned unchanged (no file is
written). -/
theorem c3_unsupported_tag
    (oracle : Nat → Option PyError) (fs : FS) (m : Model)
    (framework : String) (kw : Kwargs)
    (h : pyLower framework ∉ supportedTags) :
    export_model oracle fs m framework kw =
      .error (.valueError ("Unsupported framework: " ++ pyLower framework), fs) := by
  unfold export_model
  exact exportDispatch_unsupported oracle fs m (pyLower framework) kw h

/-- Witness for C3: the tag "foo" is rejected with the unsupported-framework
error and no file is written. -/
theorem c3_unsupported_tag_witness :
    pyLower ("foo") ∉ supportedTags ∧
      export_model happyOracle [] ⟨0⟩ ("foo") ⟨none, none, []⟩ =
        .error (.valueError ("Unsupported framework: " ++ pyLower ("foo")), []) :=
  ⟨by decide,
    c3_unsupported_tag happyOracle [] ⟨0⟩ ("foo") ⟨none, none, []⟩ (by decide)⟩

/-- Claim C9: for every supported tag other than "pytorch", passing any
keyword other than `name` (for example `sample_input`) makes `export_model`
raise a `TypeError` with the filesystem unchanged (before any file is
written), because the selected exporter accepts only the model handle and the
output name. -/
theorem c9_unexpected_kwarg_name_only
    (oracle : Nat → Option PyError) (fs : FS) (m : Model)
    (framework : String) (kw : Kwargs)
    (hfw : pyLower framework ∈ nameOnlyTags)
    (hkw : kw.sample_input.isSome = true ∨ kw.extra ≠ []) :
    ∃ msg, export_model oracle fs m framework kw =
      .error (.typeError msg, fs) := by
  unfold export_model
  exact exportDispatch_nameOnly_badKw oracle fs m (pyLower framework) kw hfw hkw

/-- Witness for C9: `export_model(m, "sklearn", sample_input=t)` raises a
`TypeError` and writes nothing. -/
theorem c9_unexpected_kwarg_name_only_witness :
    pyLower ("sklearn") ∈ nameOnlyTags ∧
      ∃ msg, export_model happyOracle [] ⟨0⟩ ("sklearn") ⟨none, some ⟨0⟩, []⟩ =
        .error (.typeError msg, []) :=
  ⟨by decide,
    c9_unexpected_kwarg_name_only happyOracle [] ⟨0⟩ ("sklearn")
      ⟨none, some ⟨0⟩, []⟩ (by decide) (Or.inl rfl)⟩

/-- Claim C10: for every unsupported tag, the unsupported-framework message
contains the lowercased form of the supplied tag (the tag is lowercased
before matching and before error reporting). -/
theorem c10_unsupported_message_lowercased
    (oracle : Nat → Option PyError) (fs : FS) (m : Model)
    (framework : String) (kw : Kwargs)
    (h : pyLower framework ∉ supportedTags) :
    ∃ msg, export_model oracle fs m framework kw =
        .error (.valueError msg, fs) ∧
      msg = "Unsupported framework: " ++ pyLower framework := by
  unfold export_model
  exact ⟨_, exportDispatch_unsupported oracle fs m (pyLower framework) kw h, rfl⟩

/-- Witness for C10: for the tag "FOO" the message names "foo" (the
lowercased spelling, which differs from the original spelling). -/
theorem c10_unsupported_message_lowercased_witness :
    (pyLower ("FOO") ∉ supportedTags ∧ pyLower ("FOO") = "foo" ∧
        pyLower ("FOO") ≠ "FOO") ∧
      ∃ msg, export_model happyOracle [] ⟨0⟩ ("FOO") ⟨none, none, []⟩ =
          .error (.valueError msg, []) ∧
        msg = "Unsupported framework: " ++ pyLower ("FOO") :=
  ⟨by decide,
    c10_unsupported_message_lowercased happyOracle [] ⟨0⟩ ("FOO")
      ⟨none, none, []⟩ (by decide)⟩

/-! ### More shared lemmas: error shapes through the dispatcher -/

/-- `bindNameOnly` can only fail with a `TypeError`. -/
theorem bindNameOnly_error_shape (fname : String) (kw : Kwargs) (e : PyError)
    (h : bindNameOnly fname kw = .error e) : ∃ msg, e = .typeError msg := by
  unfold bindNameOnly at h
  split at h
  · injection h with h1
    exact ⟨_, h1.symm⟩
  · simp at h

/-- Any error coming out of the dispatcher is either the unchanged error of
the first failing underlying call, or an error the dispatcher itself raised
(a `ValueError` or call-binding `TypeError`) before any write, with the
filesystem untouched. -/
theorem exportDispatch_error_cases (oracle : Nat → Option PyError) (fs : FS)
    (m : Model) (fw : String) (kw : Kwargs) (e : PyError) (fs' : FS)
    (h : exportDispatch oracle fs m fw kw = .error (e, fs')) :
    (∃ k, oracle k = some e ∧ ∀ j, j < k → oracle j = none) ∨
    (fs' = fs ∧ ((∃ msg, e = .valueError msg) ∨ ∃ msg, e = .typeError msg)) := by
  have hrun : ∀ ws : List (String × Content),
      runWrites oracle fs ws = .error (e, fs') →
      ∃ k, oracle k = some e ∧ ∀ j, j < k → oracle j = none := by
    intro ws hw
    obtain ⟨k, _, hk, hj, _⟩ := runWrites_error_charac ws oracle fs e fs' hw
    exact ⟨k, hk, hj⟩
  have hcase : ∀ (fname : String) (ws : String → List (String × Content)),
      ((match bindNameOnly fname kw with
        | .error e0 => .error (e0, fs)
        | .ok name => runWrites oracle fs (ws name)) :
          Except (PyError × FS) FS) = .error (e, fs') →
      (∃ k, oracle k = some e ∧ ∀ j, j < k → oracle j = none) ∨
      (fs' = fs ∧ ((∃ msg, e = .valueError msg) ∨ ∃ msg, e = .typeError msg)) := by
    intro fname ws hm
    cases hb : bindNameOnly fname kw with
    | error e0 =>
      rw [hb] at hm
      simp only [Except.error.injEq, Prod.mk.injEq] at hm
      obtain ⟨msg, hmsg⟩ := bindNameOnly_error_shape fname kw e0 hb
      exact Or.inr ⟨hm.2.symm, Or.inr ⟨msg, hm.1.symm ▸ hmsg⟩⟩
    | ok name =>
      rw [hb] at hm
      exact Or.inl (hrun _ hm)
  unfold exportDispatch at h
  by_cases h1 : fw = "sklearn"
  · rw [if_pos h1] at h
    exact hcase ("export_sklearn_model") (sklearnWrites m) h
  rw [if_neg h1] at h
  by_cases h2 : fw = "pytorch"
  · rw [if_pos h2] at h
    cases hs : kw.sample_input with
    | none =>
      rw [hs] at h
      simp only [Except.error.injEq, Prod.mk.injEq] at h
      exact Or.inr ⟨h.2.symm, Or.inl ⟨_, h.1.symm⟩⟩
    | some t0 =>
      rw [hs] at h
      simp only [Except.error.injEq, Prod.mk.injEq] at h
      exact Or.inr ⟨h.2.symm, Or.inr ⟨_, h.1.symm⟩⟩
  rw [if_neg h2] at h
  by_cases h3 : fw = "xgboost"
  · rw [if_pos h3] at h
    exact hcase ("export_xgboost_model") (xgboostWrites m) h
  rw [if_neg h3] at h
  by_cases h4 : fw = "lightgbm"
  · rw [if_pos h4] at h
    exact hcase ("export_lightgbm_model") (lightgbmWrites m) h
  rw [if_neg h4] at h
  by_cases h5 : fw = "catboost"
  · rw [if_pos h5] at h
    exact hcase ("export_catboost_model") (catboostWrites m) h
  rw [if_neg h5] at h
  by_cases h6 : fw = "keras"
  · rw [if_pos h6] at h
    exact hcase ("export_keras_model") (kerasWrites m) h
  rw [if_neg h6] at h
  simp only [Except.error.injEq, Prod.mk.injEq] at h
  exact Or.inr ⟨h.2.symm, Or.inl ⟨_, h.1.symm⟩⟩

/-- Claim C4: `os.makedirs("models", exist_ok=True)` runs at module import,
so the models directory exists before any export writes; on a state where it
already exists the call is a no-op that does not fail (idempotent
create-if-absent); and every path any exporter writes lies under `models/`. -/
theorem c4_models_dir (s : DirFS) (h : "models" ∈ s.dirs) :
    moduleInit s = .ok s ∧
    (∀ s₀ : DirFS, ∃ s₁, moduleInit s₀ = .ok s₁ ∧ "models" ∈ s₁.dirs) ∧
    (∀ (ex : Exporter) (m : Model) (t : Tensor) (name p : String)
        (c : Content), (p, c) ∈ exporterWrites ex m t name →
        ∃ f, p = "models/" ++ f) := by
  refine ⟨?_, ?_, ?_⟩
  · unfold moduleInit os_makedirs
    rw [if_pos h, if_pos rfl]
  · intro s₀
    unfold moduleInit os_makedirs
    by_cases h0 : "models" ∈ s₀.dirs
    · exact ⟨s₀, by rw [if_pos h0, if_pos rfl], h0⟩
    · exact ⟨⟨"models" :: s₀.dirs⟩, by rw [if_neg h0], by simp⟩
  · intro ex m t name p c hmem
    cases ex with
    | sklearn =>
      simp only [exporterWrites, sklearnWrites, List.mem_cons,
        List.not_mem_nil, or_false, Prod.mk.injEq] at hmem
      rcases hmem with ⟨hp, _⟩ | ⟨hp, _⟩ | ⟨hp, _⟩
      · exact ⟨name ++ ".pkl", by rw [hp, String.append_assoc]⟩
      · exact ⟨name ++ ".joblib", by rw [hp, String.append_assoc]⟩
      · exact ⟨name ++ ".bin", by rw [hp, String.append_assoc]⟩
    | pytorch =>
      simp only [exporterWrites, pytorchWrites, List.mem_cons,
        List.not_mem_nil, or_false, Prod.mk.injEq] at hmem
      rcases hmem with ⟨hp, _⟩ | ⟨hp, _⟩ | ⟨hp, _⟩
      · exact ⟨name ++ ".pt", by rw [hp, String.append_assoc]⟩
      · exact ⟨name ++ ".bin", by rw [hp, String.append_assoc]⟩
      · exact ⟨name ++ ".onnx", by rw [hp, String.append_assoc]⟩
    | xgboost =>
      simp only [exporterWrites, xgboostWrites, List.mem_cons,
        List.not_mem_nil, or_false, Prod.mk.injEq] at hmem
      rcases hmem with ⟨hp, _⟩ | ⟨hp, _⟩
      · exact ⟨name ++ ".bin", by rw [hp, String.append_assoc]⟩
      · exact ⟨name ++ ".json", by rw [hp, String.append_assoc]⟩
    | lightgbm =>
      simp only [exporterWrites, lightgbmWrites, List.mem_cons,
        List.not_mem_nil, or_false, Prod.mk.injEq] at hmem
      rcases hmem with ⟨hp, _⟩ | ⟨hp, _⟩
      · exact ⟨name ++ ".bin", by rw [hp, String.append_assoc]⟩
      · exact ⟨name ++ ".txt", by rw [hp, String.append_assoc]⟩
    | catboost =>
      simp only [exporterWrites, catboostWrites, List.mem_cons,
        List.not_mem_nil, or_false, Prod.mk.injEq] at hmem
      rcases hmem with ⟨hp, _⟩ | ⟨hp, _⟩
      · exact ⟨name ++ ".bin", by rw [hp, String.append_assoc]⟩
      · exact ⟨name ++ ".cbm", by rw [hp, String.append_assoc]⟩
    | keras =>
      simp only [exporterWrites, kerasWrites, List.mem_cons,
        List.not_mem_nil, or_false, Prod.mk.injEq] at hmem
      rcases hmem with ⟨hp, _⟩ | ⟨hp, _⟩ | ⟨hp, _⟩
      · exact ⟨name ++ ".h5", by rw [hp, String.append_assoc]⟩
      · exact ⟨name ++ "_saved_model", by rw [hp, String.append_assoc]⟩
      · exact ⟨name ++ ".tflite", by rw [hp, String.append_assoc]⟩

/-- Witness for C4, on a state that already has the directory. -/
theorem c4_models_dir_witness :
    moduleInit ⟨["models"]⟩ = .ok ⟨["models"]⟩ ∧
    (∀ s₀ : DirFS, ∃ s₁, moduleInit s₀ = .ok s₁ ∧ "models" ∈ s₁.dirs) ∧
    (∀ (ex : Exporter) (m : Model) (t : Tensor) (name p : String)
        (c : Content), (p, c) ∈ exporterWrites ex m t name →
        ∃ f, p = "models/" ++ f) :=
  c4_models_dir ⟨["models"]⟩ (by decide)

/-- Claim C5: for every model and output name, `export_sklearn_model`
performs exactly three writes, to `models/N.pkl`, `models/N.joblib` and
`models/N.bin`, and the three written contents are the same serialization
`joblib.dump(model, ...)` of the same object. -/
theorem c5_sklearn_three_identical_artifacts (m : Model) (name : String)
    (fs : FS) :
    export_sklearn_model happyOracle fs m name =
      .ok (applyWrites fs (sklearnWrites m name)) ∧
    (sklearnWrites m name).map Prod.fst =
      ["models/" ++ name ++ ".pkl", "models/" ++ name ++ ".joblib",
        "models/" ++ name ++ ".bin"] ∧
    (sklearnWrites m name).map Prod.snd =
      [.joblibPickle m, .joblibPickle m, .joblibPickle m] := by
  exact ⟨runWrites_happy _ fs, rfl, rfl⟩

/-- Witness for C5 at a concrete model and name. -/
theorem c5_sklearn_three_identical_artifacts_witness :
    export_sklearn_model happyOracle [] ⟨0⟩ ("clf") =
      .ok (applyWrites [] (sklearnWrites ⟨0⟩ ("clf"))) ∧
    (sklearnWrites ⟨0⟩ ("clf")).map Prod.fst =
      ["models/" ++ "clf" ++ ".pkl", "models/" ++ "clf" ++ ".joblib",
        "models/" ++ "clf" ++ ".bin"] ∧
    (sklearnWrites ⟨0⟩ ("clf")).map Prod.snd =
      [.joblibPickle ⟨0⟩, .joblibPickle ⟨0⟩, .joblibPickle ⟨0⟩] :=
  c5_sklearn_three_identical_artifacts ⟨0⟩ ("clf") []

/-- Claim C6: for every exporter, an error raised by an underlying framework
save/export call is returned exactly as raised (the first failing call's
error, with no earlier failure caught or retried); and any error surfacing
from `export_model` is either such an unchanged underlying error or one of
the dispatcher's own pre-export errors (unsupported tag, missing
`sample_input`, call-binding `TypeError`) raised with the filesystem
untouched.  Nothing is caught, translated, or retried anywhere on the path. -/
theorem c6_errors_propagate_unmodified
    (ex : Exporter) (oracle : Nat → Option PyError) (fs : FS) (m : Model)
    (t : Tensor) (name framework : String) (kw : Kwargs)
    (e : PyError) (fs' : FS) :
    (runExporter ex oracle fs m t name = .error (e, fs') →
      ∃ k, oracle k = some e ∧ ∀ j, j < k → oracle j = none) ∧
    (export_model oracle fs m framework kw = .error (e, fs') →
      (∃ k, oracle k = some e ∧ ∀ j, j < k → oracle j = none) ∨
      (fs' = fs ∧ ((∃ msg, e = .valueError msg) ∨ ∃ msg, e = .typeError msg))) := by
  constructor
  · intro h
    obtain ⟨k, _, hk, hj, _⟩ :=
      runWrites_error_charac (exporterWrites ex m t name) oracle fs e fs' h
    exact ⟨k, hk, hj⟩
  · intro h
    unfold export_model at h
    exact exportDispatch_error_cases oracle fs m (pyLower framework) kw e fs' h

/-- Witness for C6: a concrete failing first call in the sklearn exporter,
and the same failure surfacing through `export_model`. -/
theorem c6_errors_propagate_unmodified_witness :
    (runExporter .sklearn (failOracleAt 0 (.frameworkError 7)) [] ⟨0⟩ ⟨0⟩
        ("clf") = .error (.frameworkError 7, []) →
      ∃ k, failOracleAt 0 (.frameworkError 7) k = some (.frameworkError 7) ∧
        ∀ j, j < k → failOracleAt 0 (.frameworkError 7) j = none) ∧
    (export_model (failOracleAt 0 (.frameworkError 7)) [] ⟨0⟩ ("sklearn")
        ⟨none, none, []⟩ = .error (.frameworkError 7, []) →
      (∃ k, failOracleAt 0 (.frameworkError 7) k = some (.frameworkError 7) ∧
        ∀ j, j < k → failOracleAt 0 (.frameworkError 7) j = none) ∨
      ([] = ([] : FS) ∧ ((∃ msg, PyError.frameworkError 7 = .valueError msg) ∨
        ∃ msg, PyError.frameworkError 7 = .typeError msg))) :=
  c6_errors_propagate_unmodified .sklearn (failOracleAt 0 (.frameworkError 7))
    [] ⟨0⟩ ⟨0⟩ ("clf") ("sklearn") ⟨none, none, []⟩ (.frameworkError 7) []

/-- Claim C7: if the `k`-th underlying call of a multi-artifact export fails
(each earlier one having succeeded), the exporter leaves the filesystem equal
to the initial state plus exactly the first `k` writes: every earlier
artifact remains on disk unchanged, with no cleanup or rollback. -/
theorem c7_earlier_artifacts_survive_failure
    (ex : Exporter) (oracle : Nat → Option PyError) (fs : FS) (m : Model)
    (t : Tensor) (name : String) (e : PyError) (fs' : FS)
    (h : runExporter ex oracle fs m t name = .error (e, fs')) :
    ∃ k, k < (exporterWrites ex m t name).length ∧ oracle k = some e ∧
      (∀ j, j < k → oracle j = none) ∧
      fs' = applyWrites fs (List.take k (exporterWrites ex m t name)) := by
  exact runWrites_error_charac (exporterWrites ex m t name) oracle fs e fs' h

/-- Witness for C7: the second sklearn artifact fails; the first one (the
`.pkl` write) is on disk in the returned state. -/
theorem c7_earlier_artifacts_survive_failure_witness :
    ∃ k, k < (exporterWrites .sklearn ⟨0⟩ ⟨0⟩ ("clf")).length ∧
      failOracleAt 1 (.frameworkError 3) k = some (.frameworkError 3) ∧
      (∀ j, j < k → failOracleAt 1 (.frameworkError 3) j = none) ∧
      writeFile [] ("models/" ++ "clf" ++ ".pkl") (.joblibPickle ⟨0⟩) =
        applyWrites [] (List.take k (exporterWrites .sklearn ⟨0⟩ ⟨0⟩ ("clf"))) :=
  c7_earlier_artifacts_survive_failure .sklearn (failOracleAt 1 (.frameworkError 3))
    [] ⟨0⟩ ⟨0⟩ ("clf") (.frameworkError 3)
    (writeFile [] ("models/" ++ "clf" ++ ".pkl") (.joblibPickle ⟨0⟩)) rfl

/-- Claim C8: with a valid model (no underlying failure), running the same
exporter twice with the same output name succeeds both times, and the second
run overwrites the first run's artifacts: the resulting filesystem has the
same content at every path as after a single run. -/
theorem c8_second_export_overwrites (ex : Exporter) (m : Model) (t : Tensor)
    (name : String) (fs : FS) :
    ∃ fs₁ fs₂, runExporter ex happyOracle fs m t name = .ok fs₁ ∧
      runExporter ex happyOracle fs₁ m t name = .ok fs₂ ∧
      ∀ p, fsLookup fs₂ p = fsLookup fs₁ p := by
  refine ⟨applyWrites fs (exporterWrites ex m t name),
    applyWrites (applyWrites fs (exporterWrites ex m t name))
      (exporterWrites ex m t name),
    runWrites_happy _ fs, runWrites_happy _ _, ?_⟩
  intro p
  rw [fsLookup_applyWrites, fsLookup_applyWrites]
  cases hl : lastVal (exporterWrites ex m t name) p with
  | none => simp [hl]
  | some c => simp [hl]

/-- Witness for C8 at a concrete exporter, model and name. -/
theorem c8_second_export_overwrites_witness :
    ∃ fs₁ fs₂, runExporter .xgboost happyOracle [] ⟨0⟩ ⟨0⟩ ("iris") = .ok fs₁ ∧
      runExporter .xgboost happyOracle fs₁ ⟨0⟩ ⟨0⟩ ("iris") = .ok fs₂ ∧
      ∀ p, fsLookup fs₂ p = fsLookup fs₁ p :=
  c8_second_export_overwrites .xgboost ⟨0⟩ ⟨0⟩ ("iris") []
